import Mathlib

/-!
Verification of the query-construction core of mara-data-explorer
(`mara_data_explorer/query.py`): the data model of filters and queries,
query construction and validation, SQL compilation of filters and queries,
and the adaptive bucketing used by the number and date distributions.

Python values are embedded as follows: strings become `String`, lists become
`List`, `None`-able values become `Option`, dicts with known keys become
structures, arbitrary-precision `Decimal` arithmetic is idealised as exact
rational arithmetic over `ℚ`, and the external query executor is passed in as
a function from SQL text to result rows.  Fallible operations (Python
`KeyError`, `IndexError`, `TypeError`, `AttributeError`) return `Option`.
-/

namespace Mara

/-- The single-quote character, written via its code point. -/
def sqc : Char := Char.ofNat 39

/-- The single-quote character as a one-character string. -/
def sq : String := String.singleton sqc

/-- Doubles every occurrence of the character `q` in the character list. -/
def esc_char (q : Char) (l : List Char) : List Char :=
  (l.map (fun c => if c = q then [q, q] else [c])).flatten

/-- Modelled from the spec: `quote_identifier` lives in `mara_data_explorer/sql.py`,
which is not part of the verified sources.  Per the spec it wraps an identifier
in the dialect quoting syntax and escapes embedded quote characters; it is
modelled here in the PostgreSQL style (double quotes, embedded double quotes
doubled).  The first argument is the database alias, which the model ignores. -/
def quote_identifier (db : String) (name : String) : String :=
  "\"" ++ String.mk (esc_char '"' name.data) ++ "\""

/-- Modelled from the spec: `quote_text_literal` lives in `mara_data_explorer/sql.py`,
which is not part of the verified sources.  Per the spec it wraps a string
literal in the dialect quoting syntax and escapes embedded quote characters;
it is modelled here in the SQL standard style (single quotes, embedded single
quotes doubled).  The first argument is the database alias, which the model
ignores. -/
def quote_text_literal (db : String) (value : String) : String :=
  sq ++ String.mk (esc_char sqc value.data) ++ sq

/-- Scanner for SQL single-quote discipline.  Outside a literal, a single
quote opens one; inside a literal, a doubled quote is an escaped quote and a
lone quote closes the literal.  The scan accepts when it ends outside a
literal, i.e. when every single quote in the text belongs to a well-formed
string literal. -/
def scan_quotes : List Char → Bool → Bool
  | [], inside => !inside
  | c :: c2 :: rest, true =>
    if c = sqc then
      if c2 = sqc then scan_quotes rest true
      else scan_quotes (c2 :: rest) false
    else scan_quotes (c2 :: rest) true
  | [c], true => if c = sqc then true else false
  | c :: rest, false =>
    if c = sqc then scan_quotes rest true else scan_quotes rest false

/-- A piece of SQL text has well-formed single quoting when scanning it from
outside a literal ends outside a literal. -/
def single_quotes_well_formed (s : String) : Bool :=
  scan_quotes s.data false

/-- Modelled from the spec: the schema of one column of a data set, as seen by
the query core (the `Column` class lives outside the verified sources).  Only
the type tag is consulted by `query.py`. -/
structure ColumnSchema where
  type : String
deriving DecidableEq

/-- Modelled from the spec: the record returned by `find_data_set`, consumed
read-only by the query core.  `columns` is an insertion-ordered mapping from
column name to column schema, modelled as an association list. -/
structure DataSet where
  id : String
  database_alias : String
  database_schema : String
  database_table : String
  columns : List (String × ColumnSchema)
  default_column_names : List String
  personal_data_column_names : List String
deriving DecidableEq

/-- Column lookup in the schema mapping; `Option.none` models a Python
`KeyError` and `isSome` models the `in` membership test on the dict. -/
def DataSet.lookupColumn (ds : DataSet) (name : String) : Option ColumnSchema :=
  ds.columns.lookup name

/-- A dynamically typed filter value: Python passes `None`, a string, a
number, or a list of strings in `Filter.value`. -/
inductive FValue where
  | vnone
  | vstr (s : String)
  | vnum (n : Int)
  | vlist (vs : List String)
deriving DecidableEq

/-- Python truthiness of a filter value. -/
def FValue.truthy : FValue → Bool
  | .vnone => false
  | .vstr s => s ≠ ""
  | .vnum n => n ≠ 0
  | .vlist vs => vs ≠ []

/-- Models `filter.value or ['']` followed by iteration, as in the text and
text-array branches of `filter_to_sql`: a falsy value is replaced by a
single empty string, a list iterates its elements, a truthy string iterates
its characters, and iterating a number is a Python `TypeError`. -/
def iter_or_default (v : FValue) : Option (List String) :=
  if v.truthy then
    match v with
    | .vlist vs => some vs
    | .vstr s => some (s.data.map fun c => String.singleton c)
    | _ => Option.none
  else some [""]

/-- Rendering of a value by a Python f-string, `str(value)`. -/
def FValue.render : FValue → String
  | .vnone => "None"
  | .vstr s => s
  | .vnum n => toString n
  | .vlist vs => "[" ++ String.intercalate ", " (vs.map fun s => sq ++ s ++ sq) ++ "]"

/-- A where-condition for a data set query (`Filter` in `query.py`). -/
structure Filter where
  column_name : String
  operator : String
  value : FValue
deriving DecidableEq

/-- Python `Filter.to_dict`: the dict `{column_name, operator, value}`, which carries
exactly the fields of the filter. -/
def Filter.to_dict (f : Filter) : Filter :=
  { column_name := f.column_name, operator := f.operator, value := f.value }

/-- Python `Filter.from_dict`: rebuilds a filter from its dict. -/
def Filter.from_dict (d : Filter) : Filter :=
  { column_name := d.column_name, operator := d.operator, value := d.value }

/-- The audit timestamp slots of a query are dynamically typed: `None`, a
`datetime`, or (after deserialization) a plain date string. -/
inductive TimeVal where
  | tnone
  | dt (year month day hour minute : Nat)
  | tstr (s : String)
deriving DecidableEq

/-- Word characters, as matched by the regex class backslash-w restricted to
the ASCII range: digits, latin letters and the underscore.  The regex class
backslash-W used in the query-id normalization is its complement. -/
def is_word_char (c : Char) : Bool :=
  (48 ≤ c.toNat && c.toNat ≤ 57) || (65 ≤ c.toNat && c.toNat ≤ 90) ||
    (97 ≤ c.toNat && c.toNat ≤ 122) || c.toNat == 95

/-- One left-to-right pass of the substitution of every maximal run of
non-word characters by a single dash, as performed by the regex substitution
in the query-id normalization.  The flag records whether the scan is inside a
non-word run whose dash has already been emitted. -/
def collapse_go : Bool → List Char → List Char
  | _, [] => []
  | in_run, c :: rest =>
    if is_word_char c then c :: collapse_go false rest
    else if in_run then collapse_go true rest
    else '-' :: collapse_go true rest

/-- Replaces every maximal run of non-word characters by a single dash. -/
def collapse_nonword (l : List Char) : List Char :=
  collapse_go false l

/-- Normalization of a query id on construction: a falsy id (absent or empty)
becomes the empty id, otherwise non-word runs collapse to dashes and the
result is lower-cased. -/
def normalize_query_id : Option String → String
  | Option.none => ""
  | some s => if s = "" then "" else String.mk ((collapse_nonword s.data).map Char.toLower)

/-- Resolution of the effective column names on construction: an explicitly
provided non-empty list is kept verbatim; a falsy one falls back to the data
set default columns restricted to the schema; if that is also empty, all
schema columns in schema order. -/
def resolve_column_names (ds : DataSet) (column_names : Option (List String)) : List String :=
  let c1 := column_names.getD []
  let c2 := if c1 = [] then ds.default_column_names.filter (fun c => (ds.lookupColumn c).isSome) else c1
  if c2 = [] then ds.columns.map Prod.fst else c2

/-- The sort column is kept when it is a schema column and nulled otherwise;
an absent sort column stays absent because `None` is not a dict key. -/
def resolve_sort_column (ds : DataSet) : Option String → Option String
  | some s => if (ds.lookupColumn s).isSome then some s else Option.none
  | Option.none => Option.none

/-- A query on a data set (`Query` in `query.py`), after construction. -/
structure Query where
  data_set : DataSet
  data_set_id : String
  query_id : String
  column_names : List String
  sort_column_name : Option String
  sort_order : Option String
  filters : List Filter
  created_at : TimeVal
  created_by : Option String
  updated_at : TimeVal
  updated_by : Option String
deriving DecidableEq

/-- The constructor of `Query`: resolves the data set (failing when the id is
unknown), normalizes the query id, resolves the effective column names, nulls
an invalid sort column, stores the sort order verbatim, and keeps only the
filters whose column is a schema column. -/
def Query.init (find_data_set : String → Option DataSet) (data_set_id : String)
    (query_id : Option String) (column_names : Option (List String))
    (sort_column_name : Option String) (sort_order : Option String)
    (filters : Option (List Filter)) (created_at : TimeVal) (created_by : Option String)
    (updated_at : TimeVal) (updated_by : Option String) : Option Query := do
  let ds ← find_data_set data_set_id
  return { data_set := ds
           data_set_id := data_set_id
           query_id := normalize_query_id query_id
           column_names := resolve_column_names ds column_names
           sort_column_name := resolve_sort_column ds sort_column_name
           sort_order := sort_order
           filters := (filters.getD []).filter (fun f => (ds.lookupColumn f.column_name).isSome)
           created_at := created_at
           created_by := created_by
           updated_at := updated_at
           updated_by := updated_by }

/-- Truthiness of an optional string: absent and empty strings are falsy. -/
def truthy_str : Option String → Bool
  | some s => s ≠ ""
  | Option.none => false

/-- Renders one filter to a part of an SQL WHERE expression
(`Query.filter_to_sql`), dispatching on the type of the filter column.
Text filters with the contains operator pass every value through
`quote_text_literal`; the IN and NOT IN branch, the text-array branch and the
date branch interpolate the raw value between plain single quotes; number
filters interpolate operator and value verbatim; unknown types compile to a
tautology. -/
def Query.filter_to_sql (ds : DataSet) (f : Filter) : Option String :=
  match ds.lookupColumn f.column_name with
  | Option.none => Option.none
  | some col =>
    if col.type = "text" then
      if f.operator = "~" then
        (iter_or_default f.value).map (fun vs =>
          "(" ++ String.intercalate " OR " (vs.map (fun v =>
            "lower(" ++ quote_identifier ds.database_alias f.column_name ++ ") LIKE concat(" ++
              sq ++ "%" ++ sq ++ ", " ++ quote_text_literal ds.database_alias v ++ ", " ++
              sq ++ "%" ++ sq ++ ")")) ++ ")")
      else
        (iter_or_default f.value).map (fun vs =>
          quote_identifier ds.database_alias f.column_name ++ " " ++
            (if f.operator = "=" then "IN" else "NOT IN") ++ " (" ++
            String.intercalate ", " (vs.map (fun v => sq ++ v ++ sq)) ++ ")")
    else if col.type = "text[]" then
      (iter_or_default f.value).map (fun vs =>
        let clause := quote_identifier ds.database_alias f.column_name ++ " && ARRAY[" ++
          String.intercalate ", " (vs.map (fun v => sq ++ v ++ sq)) ++ "]::TEXT[]"
        if f.operator = "!=" then " not (" ++ clause ++ ")" else clause)
    else if col.type = "number" then
      some (quote_identifier ds.database_alias f.column_name ++ " " ++ f.operator ++ " " ++
        f.value.render)
    else if col.type = "date" then
      some (quote_identifier ds.database_alias f.column_name ++ " " ++ f.operator ++ " " ++
        sq ++ f.value.render ++ sq ++ " ")
    else some "1=1"

/-- Renders the SQL WHERE condition of a query (`Query.filters_to_sql`):
the compiled filters joined by AND, or the empty string without filters. -/
def Query.filters_to_sql (q : Query) : Option String :=
  if q.filters = [] then some ""
  else do
    let parts ← q.filters.mapM (Query.filter_to_sql q.data_set)
    return "WHERE " ++ String.intercalate "\n  AND " parts ++ "\n"

/-- Renders one column of the SELECT list: a redaction marker aliased to the
column when personal data is excluded, a decimal-mark rewrite for number
columns under a comma decimal mark, or the plain quoted identifier. -/
def render_column (ds : DataSet) (column_name : String) (decimal_mark : String)
    (include_personal_data : Bool) : Option String :=
  if !include_personal_data && ds.personal_data_column_names.contains column_name then
    some (quote_identifier ds.database_alias "🔒" ++ " AS " ++
      quote_identifier ds.database_alias column_name)
  else do
    let col ← ds.lookupColumn column_name
    if col.type = "number" && decimal_mark = "," then
      return "REPLACE(" ++ sq ++ sq ++ " || " ++ quote_identifier ds.database_alias column_name ++
        ", " ++ sq ++ "." ++ sq ++ ", " ++ sq ++ "," ++ sq ++ ") AS " ++
        quote_identifier ds.database_alias column_name
    else
      return quote_identifier ds.database_alias column_name

/-- Compiles the query to SQL text (`Query.to_sql`): the SELECT list, the FROM
clause, the WHERE condition, an ORDER BY clause when both the stored sort
order and the stored sort column are truthy, and LIMIT and OFFSET clauses when
given.  Returns nothing when the query has no columns. -/
def Query.to_sql (q : Query) (limit : Option Int) (offset : Option Int) (decimal_mark : String)
    (include_personal_data : Bool) : Option String :=
  if q.column_names ≠ [] then do
    let cols ← q.column_names.mapM (fun c =>
      render_column q.data_set c decimal_mark include_personal_data)
    let fsql ← q.filters_to_sql
    let base := "\nSELECT " ++ String.intercalate ",\n       " cols ++ "\nFROM " ++
      quote_identifier q.data_set.database_alias q.data_set.database_schema ++ "." ++
      quote_identifier q.data_set.database_alias q.data_set.database_table ++ "\n" ++ fsql
    let withSort := if truthy_str q.sort_order && truthy_str q.sort_column_name then
        base ++ ("\nORDER BY " ++
          quote_identifier q.data_set.database_alias (q.sort_column_name.getD "") ++ " " ++
          q.sort_order.getD "" ++ " NULLS LAST\n")
      else base
    let withLimit := match limit with
      | some l => withSort ++ ("\nLIMIT " ++ toString l ++ "\n")
      | Option.none => withSort
    let withOffset := match offset with
      | some o => withLimit ++ ("\nOFFSET " ++ toString o ++ "\n")
      | Option.none => withLimit
    return withOffset
  else Option.none

/-- Computes how many rows the current set of filters returns
(`Query.row_count`): runs the count statement through the executor and takes
the first cell of the first result row. -/
def Query.row_count (execute_query : String → List (List Int) × List String) (q : Query) :
    Option Int := do
  let fsql ← q.filters_to_sql
  let sql := "\nSELECT count(*) \nFROM " ++
    quote_identifier q.data_set.database_alias q.data_set.database_schema ++ "." ++
    quote_identifier q.data_set.database_alias q.data_set.database_table ++ "\n" ++ fsql ++ "\n"
  let rows := (execute_query sql).1
  let row0 ← rows[0]?
  row0[0]?

/-- Counts rows under only the filter at the given position
(`Query.filter_row_count`): fails on an out-of-range position, and returns the
whole first component of the executor result - the sequence of result rows -
without extracting the scalar count from it. -/
def Query.filter_row_count (execute_query : String → List (List Int) × List String) (q : Query)
    (filter_pos : Nat) : Option (List (List Int)) := do
  let f ← q.filters[filter_pos]?
  let fsql ← Query.filter_to_sql q.data_set f
  let sql := "\nSELECT count(*) \nFROM " ++
    quote_identifier q.data_set.database_alias q.data_set.database_schema ++ "." ++
    quote_identifier q.data_set.database_alias q.data_set.database_table ++ " \nWHERE " ++ fsql
  return (execute_query sql).1

/-- The bucket count probed by the number-distribution loop at one exponent:
the ceiling of the maximum over the current power of ten minus the floor of
the minimum over it, `max_ - min_` in the source. -/
def bucket_spread (min_value max_value : ℚ) (exponent : ℤ) : ℤ :=
  ⌈max_value / (10 : ℚ) ^ exponent⌉ - ⌊min_value / (10 : ℚ) ^ exponent⌋

/-- The exponent-decrementing loop of `Query.number_distribution`: starting
from the given exponent, decrement until the bucket spread exceeds the
minimum bucket count of five.  The loop in the source has no fuel; the fuel
argument makes the recursion structural, and the termination theorem below
shows that some finite fuel always suffices when the minimum is below the
maximum. -/
def find_bucket_exponent (min_value max_value : ℚ) : ℤ → Nat → Option ℤ
  | _, 0 => Option.none
  | exponent, fuel + 1 =>
    if 5 < bucket_spread min_value max_value exponent then some exponent
    else find_bucket_exponent min_value max_value (exponent - 1) fuel

/-- The bounds of one bucket of the number distribution at a given exponent:
from `(min_ + b) * 10 ^ exponent` to `(min_ + b + 1) * 10 ^ exponent`. -/
def bucket_bounds (min_value : ℚ) (exponent : ℤ) (b : Nat) : ℚ × ℚ :=
  (((⌊min_value / (10 : ℚ) ^ exponent⌋ + (b : ℤ) : ℤ) : ℚ) * (10 : ℚ) ^ exponent,
   ((⌊min_value / (10 : ℚ) ^ exponent⌋ + (b : ℤ) + 1 : ℤ) : ℚ) * (10 : ℚ) ^ exponent)

/-- The bucket list built by `Query.number_distribution` once the loop stops:
one bucket per index below `max_ - min_`. -/
def number_distribution_buckets (min_value max_value : ℚ) (exponent : ℤ) : List (ℚ × ℚ) :=
  (List.range (bucket_spread min_value max_value exponent).toNat).map
    (bucket_bounds min_value exponent)

/-- The time resolutions of `Query.date_distribution`, in the order of the
resolutions dict of the source. -/
inductive Resolution where
  | year
  | month
  | week
  | day
deriving DecidableEq

/-- The iteration order of the resolutions dict: year, month, week, day. -/
def resolution_order : List Resolution :=
  [Resolution.year, Resolution.month, Resolution.week, Resolution.day]

/-- The resolution-selection for-loop of `Query.date_distribution`: walk the
candidate list, break at the first resolution whose period count reaches the
minimum bucket count of five, and otherwise leave the loop variable at the
last candidate.  The period count oracle stands for the length of the arrow
range between the fixed minimum and maximum dates; the arrow library is
external to the verified sources. -/
def loop_resolutions (period_count : Resolution → Nat) : List Resolution → Resolution → Resolution
  | [], last => last
  | r :: rest, _ => if 5 ≤ period_count r then r else loop_resolutions period_count rest r

/-- The resolution chosen by `Query.date_distribution` for a given period
count oracle. -/
def choose_resolution (period_count : Resolution → Nat) : Resolution :=
  loop_resolutions period_count resolution_order Resolution.day

/-- The resolution selection as worded by the spec: the coarsest resolution
from year, month, week, day whose period count is at least five, with day as
the default when none qualifies. -/
def choose_resolution_spec (period_count : Resolution → Nat) : Resolution :=
  if 5 ≤ period_count Resolution.year then Resolution.year
  else if 5 ≤ period_count Resolution.month then Resolution.month
  else if 5 ≤ period_count Resolution.week then Resolution.week
  else Resolution.day

/-- The resolution selection and flooring step of `Query.date_distribution`:
choose the resolution by the loop above, then floor both the minimum and the
maximum date to the start of the period of the chosen resolution.  Dates and
the flooring function of the external arrow library are abstract. -/
def date_distribution_setup (α : Type) (period_count : Resolution → Nat)
    (floor_to : Resolution → α → α) (min_value max_value : α) : Resolution × α × α :=
  (choose_resolution period_count,
   floor_to (choose_resolution period_count) min_value,
   floor_to (choose_resolution period_count) max_value)

/-- Zero-pads a number to two digits, as the strftime month and day fields. -/
def pad2 (n : Nat) : String :=
  if n < 10 then "0" ++ toString n else toString n

/-- Zero-pads a number to four digits, as the strftime year field. -/
def pad4 (n : Nat) : String :=
  if n < 10 then "000" ++ toString n
  else if n < 100 then "00" ++ toString n
  else if n < 1000 then "0" ++ toString n
  else toString n

/-- Formats a date in the ISO format used by `Query.to_dict` for the audit
timestamps. -/
def format_ymd (year month day : Nat) : String :=
  pad4 year ++ "-" ++ pad2 month ++ "-" ++ pad2 day

/-- Serialization of one audit timestamp slot by `Query.to_dict`: a falsy
value (absent, or an empty string) serializes to `None`, a datetime to its
date string, and a truthy plain string has no strftime, which is a Python
`AttributeError`. -/
def time_to_dict_slot : TimeVal → Option TimeVal
  | TimeVal.tnone => some TimeVal.tnone
  | TimeVal.dt y m d _ _ => some (TimeVal.tstr (format_ymd y m d))
  | TimeVal.tstr s => if s = "" then some TimeVal.tnone else Option.none

/-- The dict produced by `Query.to_dict` and consumed by `Query.from_dict`. -/
structure QueryDict where
  data_set_id : String
  query_id : String
  column_names : List String
  sort_column_name : Option String
  sort_order : Option String
  filters : List Filter
  created_at : TimeVal
  created_by : Option String
  updated_at : TimeVal
  updated_by : Option String
deriving DecidableEq

/-- Serializes a query to a dict (`Query.to_dict`): the data set id is taken
from the resolved data set, the filters are serialized element-wise, and the
audit timestamps become date strings. -/
def Query.to_dict (q : Query) : Option QueryDict := do
  let ca ← time_to_dict_slot q.created_at
  let ua ← time_to_dict_slot q.updated_at
  return { data_set_id := q.data_set.id
           query_id := q.query_id
           column_names := q.column_names
           sort_column_name := q.sort_column_name
           sort_order := q.sort_order
           filters := q.filters.map Filter.to_dict
           created_at := ca
           created_by := q.created_by
           updated_at := ua
           updated_by := q.updated_by }

/-- Rebuilds a query from a dict (`Query.from_dict`): deserializes the filters
element-wise and passes every field back through the constructor. -/
def Query.from_dict (find_data_set : String → Option DataSet) (d : QueryDict) : Option Query :=
  Query.init find_data_set d.data_set_id (some d.query_id) (some d.column_names)
    d.sort_column_name d.sort_order (some (d.filters.map Filter.from_dict))
    d.created_at d.created_by d.updated_at d.updated_by

/-- A concrete data set with one column of each type, used as a test fixture
for the concrete evaluations below. -/
def ds_ex : DataSet :=
  { id := "ds1", database_alias := "dwh", database_schema := "public", database_table := "t",
    columns := [("name", { type := "text" }), ("n", { type := "number" }),
                ("d", { type := "date" }), ("tags", { type := "text[]" })],
    default_column_names := [], personal_data_column_names := [] }

/-- A schema provider that knows only the fixture data set. -/
def find_ex : String → Option DataSet := fun s => if s = "ds1" then some ds_ex else Option.none

/-- An executor double returning a single count row for every statement. -/
def exec_const : String → List (List Int) × List String := fun _ => ([[42]], ["count"])

/-- The fixture query on the fixture data set, with one text filter. -/
def q3 : Query :=
  { data_set := ds_ex, data_set_id := "ds1", query_id := "",
    column_names := ["name", "n", "d", "tags"], sort_column_name := Option.none,
    sort_order := some "ASC",
    filters := [{ column_name := "name", operator := "~", value := FValue.vlist ["x"] }],
    created_at := TimeVal.tnone, created_by := Option.none,
    updated_at := TimeVal.tnone, updated_by := Option.none }

/-- The fixture query with a datetime creation stamp. -/
def q4 : Query :=
  { q3 with created_at := TimeVal.dt 2020 1 5 12 30 }

/-- The fixture query sorted by name with a nonsense sort order string. -/
def q10 : Query :=
  { data_set := ds_ex, data_set_id := "ds1", query_id := "", column_names := ["name"],
    sort_column_name := some "name", sort_order := some "NOT AN ORDER", filters := [],
    created_at := TimeVal.tnone, created_by := Option.none, updated_at := TimeVal.tnone,
    updated_by := Option.none }

theorem resolve_explicit (ds : DataSet) (cn : List String) (h : cn ≠ []) :
    resolve_column_names ds (some cn) = cn := by
  simp [resolve_column_names, h]

/-- C1: the text IN branch of the predicate compiler interpolates a
user-supplied value raw between plain single quotes instead of passing it
through `quote_text_literal`; for a value containing a single quote the
returned fragment has malformed single quoting (the embedded quote is
unescaped), while the properly quoted literal of the same value would keep the
quoting well formed. -/
theorem c1_text_in_branch_unescaped_quote :
    Query.filter_to_sql ds_ex
        { column_name := "name", operator := "=", value := FValue.vlist ["O" ++ sq ++ "Brien"] } =
      some ("\"name\" IN (" ++ sq ++ "O" ++ sq ++ "Brien" ++ sq ++ ")") ∧
    single_quotes_well_formed ("\"name\" IN (" ++ sq ++ "O" ++ sq ++ "Brien" ++ sq ++ ")") = false ∧
    single_quotes_well_formed
      ("\"name\" IN (" ++ quote_text_literal "dwh" ("O" ++ sq ++ "Brien") ++ ")") = true := by
  refine ⟨by decide, by decide, by decide⟩

/-- C2, counterexample: a query constructed with the explicit column list
containing the unknown name keeps that name verbatim, so the resulting column
names are not a subset of the schema. -/
theorem c2_counterexample :
    (Query.init find_ex "ds1" Option.none (some ["name", "bogus"]) Option.none (some "ASC")
        Option.none TimeVal.tnone Option.none TimeVal.tnone Option.none).map Query.column_names =
      some ["name", "bogus"] ∧
    ds_ex.lookupColumn "bogus" = Option.none := by
  refine ⟨by decide, by decide⟩

/-- C2, amended: an explicitly provided non-empty column list is stored on the
query verbatim, with no intersection against the schema; only the
default-column fallback is restricted to schema columns. -/
theorem c2_explicit_columns_kept_verbatim (find : String → Option DataSet) (data_set_id : String)
    (query_id : Option String) (cn : List String) (sort_column_name : Option String)
    (sort_order : Option String) (filters : Option (List Filter)) (created_at : TimeVal)
    (created_by : Option String) (updated_at : TimeVal) (updated_by : Option String) (q : Query)
    (hcn : cn ≠ [])
    (hinit : Query.init find data_set_id query_id (some cn) sort_column_name sort_order filters
      created_at created_by updated_at updated_by = some q) :
    q.column_names = cn := by
  cases hfind : find data_set_id with
  | none => rw [Query.init, hfind] at hinit; simp at hinit
  | some ds =>
    rw [Query.init, hfind] at hinit
    simp only [Option.bind_eq_bind, Option.some_bind, Option.pure_def, Option.some.injEq] at hinit
    subst hinit
    exact resolve_explicit ds cn hcn

/-- C2, witness for the amended theorem at a concrete input. -/
theorem c2_witness :
    (["name", "bogus"] : List String) ≠ [] ∧
    (Query.init find_ex "ds1" Option.none (some ["name", "bogus"]) Option.none (some "ASC")
      Option.none TimeVal.tnone Option.none TimeVal.tnone Option.none).isSome = true := by
  constructor
  · decide
  · have h : Query.init find_ex "ds1" Option.none (some ["name", "bogus"]) Option.none (some "ASC")
        Option.none TimeVal.tnone Option.none TimeVal.tnone Option.none =
        some { data_set := ds_ex, data_set_id := "ds1", query_id := "",
               column_names := ["name", "bogus"], sort_column_name := Option.none,
               sort_order := some "ASC", filters := [], created_at := TimeVal.tnone,
               created_by := Option.none, updated_at := TimeVal.tnone,
               updated_by := Option.none } := by decide
    have := c2_explicit_columns_kept_verbatim find_ex "ds1" Option.none ["name", "bogus"]
      Option.none (some "ASC") Option.none TimeVal.tnone Option.none TimeVal.tnone Option.none
      _ (by decide) h
    rw [h]
    decide

/-- C3: at a valid filter position, `filter_row_count` returns the executor
result rows unextracted - here the row matrix containing the count - and not
the scalar integer that `row_count` extracts from the same executor result;
at an out-of-range position it fails.  Evaluated on the fixture query with a
one-row count result. -/
theorem c3_filter_row_count_returns_rows_not_scalar :
    Query.init find_ex "ds1" Option.none Option.none Option.none (some "ASC")
        (some [{ column_name := "name", operator := "~", value := FValue.vlist ["x"] }])
        TimeVal.tnone Option.none TimeVal.tnone Option.none = some q3 ∧
    Query.filter_row_count exec_const q3 0 = some [[42]] ∧
    Query.row_count exec_const q3 = some 42 ∧
    Query.filter_row_count exec_const q3 1 = Option.none := by
  refine ⟨by decide, by decide, by decide, by decide⟩

/-- C5, counterexample: a filter on a number column whose operator is not in
the  allow-list of the six comparison operators is still compiled, the
operator appearing verbatim in the fragment. -/
theorem c5_counterexample :
    Query.filter_to_sql ds_ex { column_name := "n", operator := "OR 1=1", value := FValue.vnum 5 } =
      some ("\"n\" OR 1=1 5") ∧
    ("OR 1=1" ∈ (["=", "!=", "<", "<=", ">", ">="] : List String)) = False := by
  refine ⟨by decide, by simp⟩

/-- C5, amended: for a filter on a number column the operator string is
interpolated verbatim into `column operator value`, with no allow-list
restriction performed by the compiler. -/
theorem c5_number_operator_verbatim (ds : DataSet) (f : Filter) (col : ColumnSchema) (n : Int)
    (hcol : ds.lookupColumn f.column_name = some col) (hty : col.type = "number")
    (hv : f.value = FValue.vnum n) :
    Query.filter_to_sql ds f =
      some (quote_identifier ds.database_alias f.column_name ++ " " ++ f.operator ++ " " ++
        toString n) := by
  rw [Query.filter_to_sql, hcol]
  simp [hty, hv, FValue.render]

/-- C5, witness for the amended theorem at a concrete input. -/
theorem c5_witness :
    ds_ex.lookupColumn "n" = some { type := "number" } ∧
    Query.filter_to_sql ds_ex { column_name := "n", operator := "<=", value := FValue.vnum 7 } =
      some (quote_identifier ds_ex.database_alias "n" ++ " " ++ "<=" ++ " " ++ toString (7 : Int)) := by
  refine ⟨by decide, c5_number_operator_verbatim ds_ex
    { column_name := "n", operator := "<=", value := FValue.vnum 7 }
    { type := "number" } 7 (by decide) rfl rfl⟩

/-- C9: construction keeps exactly the filters whose column is a schema
column, in their original order, and every filter of the constructed query has
a schema column; a filter on a non-schema column never appears, and the
construction is total. -/
theorem c9_unknown_filter_columns_dropped (find : String → Option DataSet) (data_set_id : String)
    (query_id : Option String) (column_names : Option (List String))
    (sort_column_name : Option String) (sort_order : Option String) (fs : List Filter)
    (created_at : TimeVal) (created_by : Option String) (updated_at : TimeVal)
    (updated_by : Option String) (q : Query)
    (hinit : Query.init find data_set_id query_id column_names sort_column_name sort_order
      (some fs) created_at created_by updated_at updated_by = some q) :
    q.filters = fs.filter (fun f => (q.data_set.lookupColumn f.column_name).isSome) ∧
    (∀ f ∈ q.filters, (q.data_set.lookupColumn f.column_name).isSome) ∧
    (∀ f ∈ fs, q.data_set.lookupColumn f.column_name = Option.none → f ∉ q.filters) := by
  cases hfind : find data_set_id with
  | none => rw [Query.init, hfind] at hinit; simp at hinit
  | some ds =>
    rw [Query.init, hfind] at hinit
    simp only [Option.bind_eq_bind, Option.some_bind, Option.pure_def, Option.some.injEq] at hinit
    subst hinit
    refine ⟨rfl, ?_, ?_⟩
    · intro f hf
      exact (List.mem_filter.mp hf).2
    · intro f _ hnone hmem
      have := (List.mem_filter.mp hmem).2
      rw [hnone] at this
      simp at this

/-- C9, witness at a concrete input: a filter on a ghost column is dropped,
one on a schema column is kept. -/
theorem c9_witness :
    Query.init find_ex "ds1" Option.none Option.none Option.none (some "ASC")
        (some [{ column_name := "ghost", operator := "=", value := FValue.vnone },
               { column_name := "name", operator := "~", value := FValue.vlist ["x"] }])
        TimeVal.tnone Option.none TimeVal.tnone Option.none = some q3 ∧
    q3.filters =
      [{ column_name := "ghost", operator := "=", value := FValue.vnone },
       { column_name := "name", operator := "~", value := FValue.vlist ["x"] }].filter
        (fun f => (q3.data_set.lookupColumn f.column_name).isSome) := by
  have h : Query.init find_ex "ds1" Option.none Option.none Option.none (some "ASC")
        (some [{ column_name := "ghost", operator := "=", value := FValue.vnone },
               { column_name := "name", operator := "~", value := FValue.vlist ["x"] }])
        TimeVal.tnone Option.none TimeVal.tnone Option.none = some q3 := by decide
  refine ⟨h, ?_⟩
  exact (c9_unknown_filter_columns_dropped find_ex "ds1" Option.none Option.none Option.none
    (some "ASC") _ TimeVal.tnone Option.none TimeVal.tnone Option.none q3 h).1

theorem exists_wrap₀ (x y : String) : ∃ pre post, x ++ y = pre ++ y ++ post :=
  ⟨x, "", (String.append_empty (x ++ y)).symm⟩

theorem exists_wrap₁ (x y z : String) : ∃ pre post, (x ++ y) ++ z = pre ++ y ++ post :=
  ⟨x, z, rfl⟩

theorem exists_wrap₂ (x y z w : String) : ∃ pre post, ((x ++ y) ++ z) ++ w = pre ++ y ++ post :=
  ⟨x, z ++ w, String.append_assoc (x ++ y) z w⟩

/-- C10: construction stores any sort order string verbatim with no
validation, and the SQL compiler interpolates the stored string verbatim into
the ORDER BY clause whenever the sort column is a (non-empty-named) schema
column and the sort order is non-empty; only the sort column is checked
against the schema, never the sort order. -/
theorem c10_sort_order_verbatim (find : String → Option DataSet) (data_set_id : String)
    (ds : DataSet) (query_id : Option String) (column_names : Option (List String)) (sc : String)
    (so : String) (filters : Option (List Filter)) (created_at : TimeVal)
    (created_by : Option String) (updated_at : TimeVal) (updated_by : Option String) (q : Query)
    (limit offset : Option Int) (decimal_mark : String) (include_personal_data : Bool)
    (sql : String)
    (hfind : find data_set_id = some ds)
    (hsc : (ds.lookupColumn sc).isSome = true)
    (hscne : sc ≠ "") (hso : so ≠ "")
    (hinit : Query.init find data_set_id query_id column_names (some sc) (some so) filters
      created_at created_by updated_at updated_by = some q)
    (hsql : Query.to_sql q limit offset decimal_mark include_personal_data = some sql) :
    q.sort_order = some so ∧
    ∃ pre post, sql = pre ++
      ("\nORDER BY " ++ quote_identifier ds.database_alias sc ++ " " ++ so ++ " NULLS LAST\n") ++
      post := by
  rw [Query.init, hfind] at hinit
  simp only [Option.bind_eq_bind, Option.some_bind, Option.pure_def, Option.some.injEq] at hinit
  subst hinit
  refine ⟨rfl, ?_⟩
  rw [Query.to_sql] at hsql
  split at hsql
  case isFalse => simp at hsql
  case isTrue hne =>
    simp only [Option.bind_eq_bind] at hsql
    obtain ⟨cols, hcols, hsql⟩ := Option.bind_eq_some.mp hsql
    obtain ⟨fsql, hfsql, hsql⟩ := Option.bind_eq_some.mp hsql
    simp only [Option.pure_def, Option.some.injEq] at hsql
    rw [show resolve_sort_column ds (some sc) = some sc by simp [resolve_sort_column, hsc]]
      at hsql
    rw [show truthy_str (some so) = true by simp [truthy_str, hso]] at hsql
    rw [show truthy_str (some sc) = true by simp [truthy_str, hscne]] at hsql
    simp only [Bool.and_self, if_true, Option.getD_some] at hsql
    subst hsql
    cases limit with
    | none =>
      cases offset with
      | none => exact exists_wrap₀ _ _
      | some o => exact exists_wrap₁ _ _ _
    | some l =>
      cases offset with
      | none => exact exists_wrap₁ _ _ _
      | some o => exact exists_wrap₂ _ _ _ _

/-- C10, witness at a concrete input: a nonsense sort order string is stored
verbatim and appears verbatim in the compiled SQL of the fixture query. -/
theorem c10_witness :
    find_ex "ds1" = some ds_ex ∧ (ds_ex.lookupColumn "name").isSome = true ∧
    ("name" : String) ≠ "" ∧ ("NOT AN ORDER" : String) ≠ "" ∧
    Query.init find_ex "ds1" Option.none (some ["name"]) (some "name") (some "NOT AN ORDER")
      Option.none TimeVal.tnone Option.none TimeVal.tnone Option.none = some q10 ∧
    Query.to_sql q10 Option.none Option.none "." true =
      some ("\nSELECT \"name\"\nFROM \"public\".\"t\"\n" ++
        ("\nORDER BY " ++ quote_identifier ds_ex.database_alias "name" ++ " " ++
          "NOT AN ORDER" ++ " NULLS LAST\n")) ∧
    q10.sort_order = some "NOT AN ORDER" ∧
    (∃ pre post, "\nSELECT \"name\"\nFROM \"public\".\"t\"\n" ++
        ("\nORDER BY " ++ quote_identifier ds_ex.database_alias "name" ++ " " ++
          "NOT AN ORDER" ++ " NULLS LAST\n") =
      pre ++ ("\nORDER BY " ++ quote_identifier ds_ex.database_alias "name" ++ " " ++
        "NOT AN ORDER" ++ " NULLS LAST\n") ++ post) := by
  have h1 : Query.init find_ex "ds1" Option.none (some ["name"]) (some "name")
      (some "NOT AN ORDER") Option.none TimeVal.tnone Option.none TimeVal.tnone Option.none =
      some q10 := by decide
  have h2 : Query.to_sql q10 Option.none Option.none "." true =
      some ("\nSELECT \"name\"\nFROM \"public\".\"t\"\n" ++
        ("\nORDER BY " ++ quote_identifier ds_ex.database_alias "name" ++ " " ++
          "NOT AN ORDER" ++ " NULLS LAST\n")) := by decide
  have h3 := c10_sort_order_verbatim find_ex "ds1" ds_ex Option.none (some ["name"]) "name"
    "NOT AN ORDER" Option.none TimeVal.tnone Option.none TimeVal.tnone Option.none q10
    Option.none Option.none "." true _ (by decide) (by decide) (by decide) (by decide) h1 h2
  exact ⟨by decide, by decide, by decide, by decide, h1, h2, h3.1, h3.2⟩

theorem find_bucket_spec (fuel : Nat) :
    ∀ (minv maxv : ℚ) (e0 e : ℤ),
      find_bucket_exponent minv maxv e0 fuel = some e →
      e ≤ e0 ∧ 5 < bucket_spread minv maxv e ∧
        ∀ e2 : ℤ, e < e2 → e2 ≤ e0 → bucket_spread minv maxv e2 ≤ 5 := by
  induction fuel with
  | zero =>
    intro minv maxv e0 e h
    simp [find_bucket_exponent] at h
  | succ n ih =>
    intro minv maxv e0 e h
    simp only [find_bucket_exponent] at h
    split_ifs at h with hP
    · obtain rfl : e0 = e := by injection h
      refine ⟨le_refl _, hP, ?_⟩
      intro e2 h1 h2
      omega
    · obtain ⟨h1, h2, h3⟩ := ih minv maxv (e0 - 1) e h
      refine ⟨by omega, h2, ?_⟩
      intro e2 he1 he2
      by_cases he3 : e2 ≤ e0 - 1
      · exact h3 e2 he1 he3
      · obtain rfl : e2 = e0 := by omega
        omega

theorem length_number_distribution_buckets (minv maxv : ℚ) (e : ℤ) :
    (number_distribution_buckets minv maxv e).length = (bucket_spread minv maxv e).toNat := by
  simp [number_distribution_buckets]

/-- C6: when the bucketing loop of the number distribution returns an
exponent, that exponent is the first one - the greatest not above the starting
exponent - at which the spread `max_ - min_` exceeds five, so at least six
buckets are defined; and every bucket in the built list has the bounds
`(min_ + i) * 10 ^ exponent` to `(min_ + i + 1) * 10 ^ exponent` for its index
`i`, consecutive intervals of equal width `10 ^ exponent`. -/
theorem c6_bucket_loop_first_exponent (minv maxv : ℚ) (e0 e : ℤ) (fuel : Nat)
    (h : find_bucket_exponent minv maxv e0 fuel = some e) :
    5 < bucket_spread minv maxv e ∧
    (∀ e2 : ℤ, e < e2 → e2 ≤ e0 → bucket_spread minv maxv e2 ≤ 5) ∧
    6 ≤ (number_distribution_buckets minv maxv e).length ∧
    (∀ i : Nat, i < (number_distribution_buckets minv maxv e).length →
      (number_distribution_buckets minv maxv e).getD i (0, 0) =
        (((⌊minv / (10 : ℚ) ^ e⌋ : ℚ) + (i : ℚ)) * (10 : ℚ) ^ e,
         ((⌊minv / (10 : ℚ) ^ e⌋ : ℚ) + (i : ℚ) + 1) * (10 : ℚ) ^ e)) ∧
    (∀ i : Nat, i < (number_distribution_buckets minv maxv e).length →
      ((number_distribution_buckets minv maxv e).getD i (0, 0)).2 -
        ((number_distribution_buckets minv maxv e).getD i (0, 0)).1 = (10 : ℚ) ^ e) := by
  obtain ⟨-, h2, h3⟩ := find_bucket_spec fuel minv maxv e0 e h
  have hlen : (number_distribution_buckets minv maxv e).length =
      (bucket_spread minv maxv e).toNat := length_number_distribution_buckets minv maxv e
  have hform : ∀ i : Nat, i < (number_distribution_buckets minv maxv e).length →
      (number_distribution_buckets minv maxv e).getD i (0, 0) =
        (((⌊minv / (10 : ℚ) ^ e⌋ : ℚ) + (i : ℚ)) * (10 : ℚ) ^ e,
         ((⌊minv / (10 : ℚ) ^ e⌋ : ℚ) + (i : ℚ) + 1) * (10 : ℚ) ^ e) := by
    intro i hi
    rw [hlen] at hi
    simp only [number_distribution_buckets, List.getD_eq_getElem?_getD, List.getElem?_map,
      List.getElem?_range hi, Option.map_some', Option.getD_some, bucket_bounds, Prod.mk.injEq]
    constructor <;> (push_cast; ring)
  refine ⟨h2, h3, by omega, hform, ?_⟩
  intro i hi
  rw [hform i hi]
  ring

theorem bucket_spread_eval_one : bucket_spread 0 7 1 = 1 := by
  unfold bucket_spread
  rw [zpow_one]
  rw [show ((0 : ℚ) / 10) = 0 by norm_num, Int.floor_zero]
  rw [show (⌈(7 : ℚ) / 10⌉ : ℤ) = 1 from Int.ceil_eq_iff.mpr (by norm_num)]
  decide

theorem bucket_spread_eval_zero : bucket_spread 0 7 0 = 7 := by
  unfold bucket_spread
  rw [zpow_zero]
  rw [show ((0 : ℚ) / 1) = 0 by norm_num, Int.floor_zero]
  rw [show (⌈(7 : ℚ) / 1⌉ : ℤ) = 7 from Int.ceil_eq_iff.mpr (by norm_num)]
  decide

theorem find_bucket_eval : find_bucket_exponent 0 7 1 2 = some 0 := by
  rw [show (2 : Nat) = 1 + 1 from rfl]
  simp only [find_bucket_exponent]
  norm_num [bucket_spread_eval_one, bucket_spread_eval_zero]

/-- C6, witness: the loop started at exponent one on the range zero to seven
stops at exponent zero, and the conclusions hold there. -/
theorem c6_witness :
    find_bucket_exponent 0 7 1 2 = some 0 ∧
    (5 < bucket_spread 0 7 0 ∧
     (∀ e2 : ℤ, 0 < e2 → e2 ≤ 1 → bucket_spread 0 7 e2 ≤ 5) ∧
     6 ≤ (number_distribution_buckets 0 7 0).length ∧
     (∀ i : Nat, i < (number_distribution_buckets 0 7 0).length →
       (number_distribution_buckets 0 7 0).getD i (0, 0) =
         (((⌊(0 : ℚ) / (10 : ℚ) ^ (0 : ℤ)⌋ : ℚ) + (i : ℚ)) * (10 : ℚ) ^ (0 : ℤ),
          ((⌊(0 : ℚ) / (10 : ℚ) ^ (0 : ℤ)⌋ : ℚ) + (i : ℚ) + 1) * (10 : ℚ) ^ (0 : ℤ))) ∧
     (∀ i : Nat, i < (number_distribution_buckets 0 7 0).length →
       ((number_distribution_buckets 0 7 0).getD i (0, 0)).2 -
         ((number_distribution_buckets 0 7 0).getD i (0, 0)).1 = (10 : ℚ) ^ (0 : ℤ))) :=
  ⟨find_bucket_eval, c6_bucket_loop_first_exponent 0 7 1 0 2 find_bucket_eval⟩

theorem find_bucket_reaches (minv maxv : ℚ) :
    ∀ (fuel : Nat) (e0 e1 : ℤ), e1 ≤ e0 → 5 < bucket_spread minv maxv e1 →
      (e0 - e1).toNat < fuel → ∃ e, find_bucket_exponent minv maxv e0 fuel = some e := by
  intro fuel
  induction fuel with
  | zero => intro e0 e1 h1 h2 h3; omega
  | succ n ih =>
    intro e0 e1 h1 h2 h3
    by_cases hP : 5 < bucket_spread minv maxv e0
    · exact ⟨e0, by simp only [find_bucket_exponent]; rw [if_pos hP]⟩
    · have hne : e1 ≠ e0 := by
        intro hcontra
        exact hP (hcontra ▸ h2)
      obtain ⟨e, he⟩ := ih (e0 - 1) e1 (by omega) h2 (by omega)
      exact ⟨e, by simp only [find_bucket_exponent]; rw [if_neg hP]; exact he⟩

theorem bucket_spread_large (minv maxv : ℚ) (e1 : ℤ) (h : (10 : ℚ) ^ e1 * 6 < maxv - minv) :
    5 < bucket_spread minv maxv e1 := by
  have hp : (0 : ℚ) < (10 : ℚ) ^ e1 := zpow_pos (by norm_num) e1
  have h6 : (6 : ℚ) < (maxv - minv) / (10 : ℚ) ^ e1 := by
    rw [lt_div_iff₀ hp]
    linarith [h]
  have hceil : (maxv / (10 : ℚ) ^ e1) ≤ (⌈maxv / (10 : ℚ) ^ e1⌉ : ℚ) := Int.le_ceil _
  have hfloor : ((⌊minv / (10 : ℚ) ^ e1⌋ : ℚ)) ≤ minv / (10 : ℚ) ^ e1 := Int.floor_le _
  have hdiff : (maxv - minv) / (10 : ℚ) ^ e1 = maxv / (10 : ℚ) ^ e1 - minv / (10 : ℚ) ^ e1 := by
    ring
  have : (5 : ℚ) < (⌈maxv / (10 : ℚ) ^ e1⌉ : ℚ) - ((⌊minv / (10 : ℚ) ^ e1⌋ : ℚ)) := by
    rw [hdiff] at h6
    linarith
  have : (5 : ℚ) < ((⌈maxv / (10 : ℚ) ^ e1⌉ - ⌊minv / (10 : ℚ) ^ e1⌋ : ℤ) : ℚ) := by
    push_cast
    linarith
  unfold bucket_spread
  exact_mod_cast this

/-- C8: for every pair of values with the minimum below the maximum and every
starting exponent, the exponent-decrementing loop of the number distribution
terminates: some finite fuel makes it return an exponent. -/
theorem c8_bucket_loop_terminates (minv maxv : ℚ) (e0 : ℤ) (h : minv < maxv) :
    ∃ (fuel : Nat) (e : ℤ), find_bucket_exponent minv maxv e0 fuel = some e := by
  have hd : (0 : ℚ) < (maxv - minv) / 6 := by linarith
  obtain ⟨n, hn⟩ := exists_pow_lt_of_lt_one hd (show (1 / 10 : ℚ) < 1 by norm_num)
  have hpow : (10 : ℚ) ^ (-(n : ℤ)) = (1 / 10 : ℚ) ^ n := by
    rw [zpow_neg, zpow_natCast, one_div, inv_pow]
  have hmin : min (-(n : ℤ)) e0 ≤ -(n : ℤ) := min_le_left _ _
  have hle : (10 : ℚ) ^ (min (-(n : ℤ)) e0) ≤ (10 : ℚ) ^ (-(n : ℤ)) :=
    zpow_le_zpow_right₀ (by norm_num) hmin
  have hsmall : (10 : ℚ) ^ (min (-(n : ℤ)) e0) * 6 < maxv - minv := by
    have h1 : (10 : ℚ) ^ (min (-(n : ℤ)) e0) < (maxv - minv) / 6 := by
      rw [← hpow] at hn
      exact lt_of_le_of_lt hle hn
    have h2 : (10 : ℚ) ^ (min (-(n : ℤ)) e0) * 6 < ((maxv - minv) / 6) * 6 := by
      have : (0 : ℚ) < 6 := by norm_num
      exact mul_lt_mul_of_pos_right h1 this
    calc (10 : ℚ) ^ (min (-(n : ℤ)) e0) * 6 < ((maxv - minv) / 6) * 6 := h2
    _ = maxv - minv := by ring
  have hbig := bucket_spread_large minv maxv (min (-(n : ℤ)) e0) hsmall
  obtain ⟨e, he⟩ := find_bucket_reaches minv maxv ((e0 - min (-(n : ℤ)) e0).toNat + 1) e0
    (min (-(n : ℤ)) e0) (min_le_right _ _) hbig (by omega)
  exact ⟨(e0 - min (-(n : ℤ)) e0).toNat + 1, e, he⟩

/-- C8, witness: the loop terminates on the concrete range zero to seven. -/
theorem c8_witness :
    (0 : ℚ) < 7 ∧ ∃ (fuel : Nat) (e : ℤ), find_bucket_exponent 0 7 1 fuel = some e :=
  ⟨by norm_num, c8_bucket_loop_terminates 0 7 1 (by norm_num)⟩

/-- C7: the resolution-selection loop of the date distribution picks exactly
the coarsest resolution from year, month, week, day whose period count
between the minimum and maximum reaches five, with day as the default when
none qualifies, and both bounds are floored to the start of the chosen
resolution period. -/
theorem c7_date_resolution_selection (α : Type) (period_count : Resolution → Nat)
    (floor_to : Resolution → α → α) (min_value max_value : α) :
    choose_resolution period_count = choose_resolution_spec period_count ∧
    date_distribution_setup α period_count floor_to min_value max_value =
      (choose_resolution_spec period_count,
       floor_to (choose_resolution_spec period_count) min_value,
       floor_to (choose_resolution_spec period_count) max_value) := by
  have h : choose_resolution period_count = choose_resolution_spec period_count := by
    unfold choose_resolution choose_resolution_spec resolution_order loop_resolutions
    by_cases h1 : 5 ≤ period_count Resolution.year <;>
      by_cases h2 : 5 ≤ period_count Resolution.month <;>
        by_cases h3 : 5 ≤ period_count Resolution.week <;>
          by_cases h4 : 5 ≤ period_count Resolution.day <;>
            simp [h1, h2, h3, h4, loop_resolutions]
  refine ⟨h, ?_⟩
  unfold date_distribution_setup
  rw [h]

theorem char_toNat_ofNat (m : Nat) (h : m.isValidChar) : (Char.ofNat m).toNat = m := by
  simp [Char.ofNat, h, Char.ofNatAux, Char.toNat, UInt32.toNat]

theorem toLower_toNat_upper (c : Char) (h : 65 ≤ c.toNat ∧ c.toNat ≤ 90) :
    (Char.toLower c).toNat = c.toNat + 32 := by
  unfold Char.toLower
  rw [if_pos ⟨h.1, h.2⟩]
  exact char_toNat_ofNat _ (Or.inl (by omega))

theorem toLower_eq_self (c : Char) (h : ¬(65 ≤ c.toNat ∧ c.toNat ≤ 90)) :
    Char.toLower c = c := by
  unfold Char.toLower
  rw [if_neg]
  intro hc
  exact h ⟨hc.1, hc.2⟩

theorem is_word_char_toLower (c : Char) : is_word_char (Char.toLower c) = is_word_char c := by
  by_cases h : 65 ≤ c.toNat ∧ c.toNat ≤ 90
  · have ht := toLower_toNat_upper c h
    have h1 : is_word_char (Char.toLower c) = true := by
      simp only [is_word_char, ht]
      simp only [Bool.or_eq_true, Bool.and_eq_true, decide_eq_true_eq, beq_iff_eq]
      omega
    have h2 : is_word_char c = true := by
      simp only [is_word_char]
      simp only [Bool.or_eq_true, Bool.and_eq_true, decide_eq_true_eq, beq_iff_eq]
      omega
    rw [h1, h2]
  · rw [toLower_eq_self c h]

theorem toLower_idem (c : Char) : Char.toLower (Char.toLower c) = Char.toLower c := by
  by_cases h : 65 ≤ c.toNat ∧ c.toNat ≤ 90
  · apply toLower_eq_self
    rw [toLower_toNat_upper c h]
    omega
  · rw [toLower_eq_self c h]
    exact toLower_eq_self c h

theorem toLower_dash : Char.toLower '-' = '-' := by decide

theorem collapse_go_map_toLower (l : List Char) :
    ∀ b, collapse_go b (l.map Char.toLower) = (collapse_go b l).map Char.toLower := by
  induction l with
  | nil => intro b; simp [collapse_go]
  | cons c rest ih =>
    intro b
    simp only [List.map_cons, collapse_go, is_word_char_toLower]
    by_cases hw : is_word_char c
    · simp [hw, ih false]
    · by_cases hb : b
      · simp [hw, hb, ih true]
      · simp [hw, hb, ih true, toLower_dash]

theorem collapse_go_idem (l : List Char) :
    (∀ b, collapse_go false (collapse_go b l) = collapse_go b l) ∧
    collapse_go true (collapse_go true l) = collapse_go true l := by
  induction l with
  | nil => exact ⟨fun b => by simp [collapse_go], by simp [collapse_go]⟩
  | cons c rest ih =>
    obtain ⟨ih1, ih2⟩ := ih
    constructor
    · intro b
      by_cases hw : is_word_char c
      · simp only [collapse_go, hw, if_true]
        rw [ih1 false]
      · by_cases hb : b
        · subst hb
          simp only [collapse_go, hw, if_false, if_true, Bool.false_eq_true]
          exact ih1 true
        · simp only [hb] at *
          simp only [collapse_go, hw, if_false, Bool.false_eq_true]
          have hd : is_word_char '-' = false := by decide
          simp only [collapse_go, hd, if_false, Bool.false_eq_true]
          rw [ih2]
    · by_cases hw : is_word_char c
      · simp only [collapse_go, hw, if_true]
        rw [ih1 false]
      · simp only [collapse_go, hw, if_false, if_true, Bool.false_eq_true]
        exact ih2

theorem normalize_idem (x : Option String) :
    normalize_query_id (some (normalize_query_id x)) = normalize_query_id x := by
  have key : ∀ l : List Char,
      ((collapse_go false ((collapse_go false l).map Char.toLower)).map Char.toLower) =
        (collapse_go false l).map Char.toLower := by
    intro l
    rw [collapse_go_map_toLower, (collapse_go_idem l).1 false, List.map_map]
    have : Char.toLower ∘ Char.toLower = Char.toLower := funext toLower_idem
    rw [this]
  cases x with
  | none => simp [normalize_query_id]
  | some s =>
    by_cases hs : s = ""
    · simp [normalize_query_id, hs]
    · simp only [normalize_query_id, hs, if_neg, if_false]
      by_cases ht : String.mk ((collapse_nonword s.data).map Char.toLower) = ""
      · rw [if_pos ht, ht]
      · rw [if_neg ht]
        unfold collapse_nonword
        exact congrArg String.mk (key s.data)

theorem resolve_idem (ds : DataSet) (cn : Option (List String)) :
    resolve_column_names ds (some (resolve_column_names ds cn)) = resolve_column_names ds cn := by
  by_cases hr : resolve_column_names ds cn = []
  · rw [hr]
    by_cases h1 : cn.getD [] = [] <;>
      by_cases h2 : ds.default_column_names.filter (fun c => (ds.lookupColumn c).isSome) = [] <;>
        by_cases h3 : ds.columns.map Prod.fst = [] <;>
          simp_all [resolve_column_names]
  · exact resolve_explicit ds _ hr

theorem resolve_sort_idem (ds : DataSet) (sc : Option String) :
    resolve_sort_column ds (resolve_sort_column ds sc) = resolve_sort_column ds sc := by
  cases sc with
  | none => simp [resolve_sort_column]
  | some s =>
    by_cases h : (ds.lookupColumn s).isSome <;> simp [resolve_sort_column, h]

theorem filter_idem (p : Filter → Bool) (l : List Filter) :
    (l.filter p).filter p = l.filter p := by
  induction l with
  | nil => simp
  | cons f rest ih =>
    by_cases h : p f <;> simp [h, ih]

theorem filters_map_from_to (l : List Filter) :
    (l.map Filter.to_dict).map Filter.from_dict = l := by
  rw [List.map_map]
  have h : Filter.from_dict ∘ Filter.to_dict = id := funext fun f => rfl
  rw [h, List.map_id]

/-- C4, counterexample: a constructible query with a datetime creation stamp
does not survive the dict round trip, because the stamp is serialized to its
date string and deserialized as that plain string. -/
theorem c4_counterexample :
    Query.init find_ex "ds1" Option.none Option.none Option.none (some "ASC")
        (some [{ column_name := "name", operator := "~", value := FValue.vlist ["x"] }])
        (TimeVal.dt 2020 1 5 12 30) Option.none TimeVal.tnone Option.none = some q4 ∧
    (Query.to_dict q4).bind (Query.from_dict find_ex) =
      some { q4 with created_at := TimeVal.tstr "2020-01-05" } ∧
    (Query.to_dict q4).bind (Query.from_dict find_ex) ≠ some q4 := by
  refine ⟨by decide, by decide, by decide⟩

/-- C4, amended: the dict round trip `from_dict (to_dict q)` restores every
field of a constructible query - data set id, query id, column names, sort
column, sort order, filters, creator and updater - except the audit
timestamps, which are replaced by their date-string serialization; the round
trip is the identity whenever both timestamps are absent. -/
theorem c4_roundtrip_with_none_timestamps (find : String → Option DataSet) (data_set_id : String)
    (ds : DataSet) (query_id : Option String) (column_names : Option (List String))
    (sort_column_name : Option String) (sort_order : Option String)
    (filters : Option (List Filter)) (created_by updated_by : Option String) (q : Query)
    (hfind : find data_set_id = some ds) (hid : ds.id = data_set_id)
    (hinit : Query.init find data_set_id query_id column_names sort_column_name sort_order
      filters TimeVal.tnone created_by TimeVal.tnone updated_by = some q) :
    (Query.to_dict q).bind (Query.from_dict find) = some q := by
  rw [Query.init, hfind] at hinit
  simp only [Option.bind_eq_bind, Option.some_bind, Option.pure_def, Option.some.injEq] at hinit
  subst hinit
  rw [Query.to_dict]
  simp only [time_to_dict_slot, Option.bind_eq_bind, Option.some_bind, Option.pure_def]
  rw [Query.from_dict]
  dsimp only
  rw [hid, Query.init, hfind]
  simp only [Option.bind_eq_bind, Option.some_bind, Option.pure_def, Option.some.injEq,
    Query.mk.injEq, and_true, true_and]
  refine ⟨normalize_idem query_id, resolve_idem ds column_names,
    resolve_sort_idem ds sort_column_name, ?_⟩
  rw [Option.getD_some, filters_map_from_to]
  exact filter_idem _ _

/-- C4, witness for the amended theorem at a concrete input. -/
theorem c4_witness :
    find_ex "ds1" = some ds_ex ∧ ds_ex.id = "ds1" ∧
    Query.init find_ex "ds1" Option.none Option.none Option.none (some "ASC")
      (some [{ column_name := "name", operator := "~", value := FValue.vlist ["x"] }])
      TimeVal.tnone Option.none TimeVal.tnone Option.none = some q3 ∧
    (Query.to_dict q3).bind (Query.from_dict find_ex) = some q3 := by
  have h1 : Query.init find_ex "ds1" Option.none Option.none Option.none (some "ASC")
      (some [{ column_name := "name", operator := "~", value := FValue.vlist ["x"] }])
      TimeVal.tnone Option.none TimeVal.tnone Option.none = some q3 := by decide
  exact ⟨by decide, by decide, h1,
    c4_roundtrip_with_none_timestamps find_ex "ds1" ds_ex Option.none Option.none Option.none
      (some "ASC")
      (some [{ column_name := "name", operator := "~", value := FValue.vlist ["x"] }])
      Option.none Option.none q3 (by decide) (by decide) h1⟩
